import Mathlib

/-!
Verification of the Mars Rover navigation core of this repository.

The embedding below translates, definition by definition, the TypeScript
classes of the Rover core: the four `Direction` classes (rotation,
translation and naming), the `Grid` class (bounds check and obstacle
lookup over a list of registered components), the `Rover` class (position,
heading, the three primitive actions and `report`), and the command layer
together with the driver loop that executes a sequence of M/L/R commands.
Console diagnostics are made observable as a list of emitted log lines.
-/

namespace MarsRover

/-- The four compass headings, one per `Direction` subclass of the source. -/
inductive Direction
  | north
  | south
  | east
  | west
deriving DecidableEq, Repr

/-- Rotation 90 degrees counter-clockwise: each class's `left()` method. -/
def Direction.left : Direction → Direction
  | .north => .west
  | .south => .east
  | .east => .north
  | .west => .south

/-- Rotation 90 degrees clockwise: each class's `right()` method. -/
def Direction.right : Direction → Direction
  | .north => .east
  | .south => .west
  | .east => .south
  | .west => .north

/-- Translation one unit ahead: each class's `move(x, y)` method. -/
def Direction.move : Direction → Int → Int → Int × Int
  | .north, x, y => (x, y + 1)
  | .south, x, y => (x, y - 1)
  | .east, x, y => (x + 1, y)
  | .west, x, y => (x - 1, y)

/-- Single-letter identifier: each class's `name()` method. -/
def Direction.name : Direction → String
  | .north => "N"
  | .south => "S"
  | .east => "E"
  | .west => "W"

/-- A registered grid component: either a plain `Cell` or an `Obstacle`,
each carrying its coordinates, as in the two `GridComponent` subclasses. -/
inductive GridComponent
  | cell (x y : Int)
  | obstacle (x y : Int)
deriving DecidableEq, Repr

/-- The `isObstacle()` predicate: false on `Cell`, true on `Obstacle`. -/
def GridComponent.isObstacle : GridComponent → Bool
  | .cell _ _ => false
  | .obstacle _ _ => true

/-- The `x` coordinate field of a component. -/
def GridComponent.x : GridComponent → Int
  | .cell x _ => x
  | .obstacle x _ => x

/-- The `y` coordinate field of a component. -/
def GridComponent.y : GridComponent → Int
  | .cell _ y => y
  | .obstacle _ y => y

/-- The `Grid` class: immutable width and height set at construction, plus
the list of components registered so far (initially empty). -/
structure Grid where
  width : Int
  height : Int
  components : List GridComponent
deriving DecidableEq, Repr

/-- `add(component)`: pushes a component onto the list. -/
def Grid.add (g : Grid) (c : GridComponent) : Grid :=
  { g with components := g.components ++ [c] }

/-- `withinBounds(x, y)`: `x >= 0 && y >= 0 && x < width && y < height`. -/
def Grid.withinBounds (g : Grid) (x y : Int) : Bool :=
  decide (x ≥ 0) && decide (y ≥ 0) && decide (x < g.width) && decide (y < g.height)

/-- `isBlocked(x, y)`: some registered component is an obstacle at (x, y). -/
def Grid.isBlocked (g : Grid) (x y : Int) : Bool :=
  g.components.any fun c => c.isObstacle && decide (c.x = x) && decide (c.y = y)

/-- The `Rover` class state: position `(x, y)`, heading `direction`, and
the grid reference received at construction. -/
structure Rover where
  x : Int
  y : Int
  direction : Direction
  grid : Grid
deriving DecidableEq, Repr

/-- `turnLeft()`: heading becomes `direction.left()`. -/
def Rover.turnLeft (r : Rover) : Rover :=
  { r with direction := r.direction.left }

/-- `turnRight()`: heading becomes `direction.right()`. -/
def Rover.turnRight (r : Rover) : Rover :=
  { r with direction := r.direction.right }

/-- The `console.log` diagnostic emitted by a blocked `moveForward()`. -/
def moveBlockedMsg (nx ny : Int) : String :=
  s!"⚠️ Movement blocked at ({nx}, {ny})"

/-- `moveForward()`: compute the candidate cell ahead; commit it when it is
within bounds and unblocked, otherwise keep the state and log a diagnostic.
The second component collects the log lines the call emits. -/
def Rover.moveForward (r : Rover) : Rover × List String :=
  let p := r.direction.move r.x r.y
  let nx := p.1
  let ny := p.2
  if r.grid.withinBounds nx ny && !(r.grid.isBlocked nx ny) then
    ({ r with x := nx, y := ny }, [])
  else
    (r, [moveBlockedMsg nx ny])

/-- `report()`: the human-readable state string. -/
def Rover.report (r : Rover) : String :=
  let x := r.x
  let y := r.y
  let n := r.direction.name
  s!"Rover is at ({x}, {y}) facing {n}"

/-- The three command letters of the driver's command map:
M = MoveCommand, L = TurnLeftCommand, R = TurnRightCommand. -/
inductive Command
  | M
  | L
  | R
deriving DecidableEq, Repr

/-- Dispatch of one command's `execute()` to the bound Rover operation,
with the log lines it emits. -/
def Rover.exec (r : Rover) : Command → Rover × List String
  | .M => r.moveForward
  | .L => (r.turnLeft, [])
  | .R => (r.turnRight, [])

/-- The driver's `sequence.forEach(cmd => commandMap[cmd]().execute())`
loop: run the commands in order, collecting all emitted log lines. -/
def runSequence : Rover → List Command → Rover × List String
  | r, [] => (r, [])
  | r, c :: cs =>
    let step := r.exec c
    let rest := runSequence step.1 cs
    (rest.1, step.2 ++ rest.2)

/-- The driver's grid: 10 by 10 with obstacles at (2,2) and (3,5). -/
def scenarioGrid : Grid :=
  ((Grid.mk 10 10 []).add (.obstacle 2 2)).add (.obstacle 3 5)

/-- The driver's rover: starts at (0,0) facing North on `scenarioGrid`. -/
def scenarioRover : Rover :=
  ⟨0, 0, .north, scenarioGrid⟩

/-- The driver's example sequence M, M, R, M, L, M. -/
def scenarioCmds : List Command :=
  [.M, .M, .R, .M, .L, .M]

/-- The grid of the blocked-move scenario: obstacle directly at (2,2). -/
def blockedGrid : Grid :=
  (Grid.mk 10 10 []).add (.obstacle 2 2)

/-- The rover of the blocked-move scenario: at (2,1) facing North. -/
def blockedRover : Rover :=
  ⟨2, 1, .north, blockedGrid⟩

/-- Exception-aware translation of `turnLeft()`: the method body contains
no throw site, so the translation has no `Except.error` branch. -/
def Rover.turnLeftE (r : Rover) : Except String Rover :=
  Except.ok r.turnLeft

/-- Exception-aware translation of `turnRight()`: no throw site. -/
def Rover.turnRightE (r : Rover) : Except String Rover :=
  Except.ok r.turnRight

/-- Exception-aware translation of `moveForward()`: the blocked case logs
and returns normally; there is no throw site. -/
def Rover.moveForwardE (r : Rover) : Except String (Rover × List String) :=
  Except.ok r.moveForward

/-- Exception-aware translation of `report()`: no throw site. -/
def Rover.reportE (r : Rover) : Except String String :=
  Except.ok r.report

/-- The safety predicate on a rover state: its position is within its
grid's bounds and not on a blocked cell. -/
def SafePos (r : Rover) : Prop :=
  r.grid.withinBounds r.x r.y = true ∧ r.grid.isBlocked r.x r.y = false

/-- `isBlocked` unfolded to membership of an obstacle at the coordinate. -/
theorem isBlocked_eq_true_iff (g : Grid) (x y : Int) :
    g.isBlocked x y = true ↔
      ∃ c ∈ g.components, c.isObstacle = true ∧ c.x = x ∧ c.y = y := by
  simp [Grid.isBlocked, List.any_eq_true, and_assoc]

/-- Executing one command never changes the rover's grid reference. -/
theorem exec_grid_eq (r : Rover) (c : Command) : (r.exec c).1.grid = r.grid := by
  cases c with
  | M =>
    show r.moveForward.1.grid = r.grid
    unfold Rover.moveForward
    dsimp only
    split <;> rfl
  | L => rfl
  | R => rfl

/-- Executing one command preserves the safety predicate. -/
theorem exec_safe (r : Rover) (c : Command) (h : SafePos r) : SafePos (r.exec c).1 := by
  cases c with
  | M =>
    show SafePos r.moveForward.1
    unfold Rover.moveForward SafePos
    dsimp only
    split
    · next hcond =>
      simp only [Bool.and_eq_true, Bool.not_eq_true'] at hcond
      exact ⟨hcond.1, hcond.2⟩
    · exact h
  | L => exact h
  | R => exact h

/-- Unfolding one step of the driver loop, projected to the rover. -/
theorem runSequence_cons (r : Rover) (c : Command) (cs : List Command) :
    (runSequence r (c :: cs)).1 = (runSequence (r.exec c).1 cs).1 := rfl

/-- The driver loop never changes the rover's grid reference. -/
theorem runSequence_grid_eq (cmds : List Command) (r : Rover) :
    (runSequence r cmds).1.grid = r.grid := by
  induction cmds generalizing r with
  | nil => rfl
  | cons c cs ih => rw [runSequence_cons, ih, exec_grid_eq]

/-- The driver loop preserves the safety predicate. -/
theorem runSequence_safe (cmds : List Command) (r : Rover) (h : SafePos r) :
    SafePos (runSequence r cmds).1 := by
  induction cmds generalizing r with
  | nil => exact h
  | cons c cs ih => rw [runSequence_cons]; exact ih _ (exec_safe r c h)

/-- C1: `moveForward()` computes the candidate cell (nx, ny) ahead of the
current heading; when the grid accepts it (within bounds and not blocked)
the position commits to (nx, ny) with no diagnostic, and otherwise the
state is unchanged and a blocked-movement diagnostic naming (nx, ny) is
emitted. -/
theorem moveForward_spec (r : Rover) (nx ny : Int)
    (hm : r.direction.move r.x r.y = (nx, ny)) :
    (r.grid.withinBounds nx ny = true → r.grid.isBlocked nx ny = false →
      r.moveForward = ({ r with x := nx, y := ny }, [])) ∧
    (r.grid.withinBounds nx ny = false ∨ r.grid.isBlocked nx ny = true →
      r.moveForward = (r, [moveBlockedMsg nx ny])) := by
  unfold Rover.moveForward
  constructor
  · intro hw hb
    simp [hm, hw, hb]
  · rintro (hw | hb)
    · simp [hm, hw]
    · simp [hm, hb]

/-- Witness for C1 at the blocked-move scenario: the rover at (2,1) facing
North with an obstacle at (2,2) stays put and logs the diagnostic. -/
theorem moveForward_spec_witness :
    blockedRover.direction.move blockedRover.x blockedRover.y = (2, 2) ∧
    blockedRover.grid.isBlocked 2 2 = true ∧
    blockedRover.moveForward = (blockedRover, [moveBlockedMsg 2 2]) :=
  ⟨by decide, by decide,
    (moveForward_spec blockedRover 2 2 (by decide)).2 (Or.inr (by decide))⟩

/-- C2: starting from a position that is within bounds and not on an
obstacle, after any finite command sequence the rover's position is still
within the grid's bounds and coincides with no obstacle component. -/
theorem rover_position_invariant (r : Rover) (cmds : List Command)
    (hb : r.grid.withinBounds r.x r.y = true)
    (ho : r.grid.isBlocked r.x r.y = false) :
    r.grid.withinBounds (runSequence r cmds).1.x (runSequence r cmds).1.y = true ∧
    ∀ c ∈ r.grid.components, c.isObstacle = true →
      ¬(c.x = (runSequence r cmds).1.x ∧ c.y = (runSequence r cmds).1.y) := by
  have hsafe := runSequence_safe cmds r ⟨hb, ho⟩
  have h1 := hsafe.1
  have h2 := hsafe.2
  rw [runSequence_grid_eq] at h1 h2
  refine ⟨h1, ?_⟩
  intro c hc hobs hxy
  have hblocked : r.grid.isBlocked (runSequence r cmds).1.x (runSequence r cmds).1.y = true :=
    (isBlocked_eq_true_iff r.grid _ _).mpr ⟨c, hc, hobs, hxy.1, hxy.2⟩
  rw [h2] at hblocked
  exact Bool.false_ne_true hblocked

/-- Witness for C2 at the driver scenario. -/
theorem rover_position_invariant_witness :
    (scenarioRover.grid.withinBounds scenarioRover.x scenarioRover.y = true ∧
      scenarioRover.grid.isBlocked scenarioRover.x scenarioRover.y = false) ∧
    (scenarioRover.grid.withinBounds (runSequence scenarioRover scenarioCmds).1.x
        (runSequence scenarioRover scenarioCmds).1.y = true ∧
      ∀ c ∈ scenarioRover.grid.components, c.isObstacle = true →
        ¬(c.x = (runSequence scenarioRover scenarioCmds).1.x ∧
          c.y = (runSequence scenarioRover scenarioCmds).1.y)) :=
  ⟨⟨by decide, by decide⟩,
    rover_position_invariant scenarioRover scenarioCmds (by decide) (by decide)⟩

/-- C3: the four Direction values satisfy the stated rotation, translation
and naming tables. -/
theorem direction_tables :
    (Direction.left .north = .west ∧ Direction.left .west = .south ∧
      Direction.left .south = .east ∧ Direction.left .east = .north) ∧
    (Direction.right .north = .east ∧ Direction.right .east = .south ∧
      Direction.right .south = .west ∧ Direction.right .west = .north) ∧
    (∀ x y : Int,
      Direction.move .north x y = (x, y + 1) ∧
      Direction.move .south x y = (x, y - 1) ∧
      Direction.move .east x y = (x + 1, y) ∧
      Direction.move .west x y = (x - 1, y)) ∧
    (Direction.name .north = "N" ∧ Direction.name .south = "S" ∧
      Direction.name .east = "E" ∧ Direction.name .west = "W") :=
  ⟨⟨rfl, rfl, rfl, rfl⟩, ⟨rfl, rfl, rfl, rfl⟩,
    fun _ _ => ⟨rfl, rfl, rfl, rfl⟩, ⟨rfl, rfl, rfl, rfl⟩⟩

/-- C4: on the driver scenario, the MMRMLM run passes through (0,1), then
(0,2), turns East, moves to (1,2), turns North, moves to (1,3), and the
final report string is exactly "Rover is at (1, 3) facing N". -/
theorem scenario_trace :
    (runSequence scenarioRover (scenarioCmds.take 1)).1.x = 0 ∧
    (runSequence scenarioRover (scenarioCmds.take 1)).1.y = 1 ∧
    (runSequence scenarioRover (scenarioCmds.take 2)).1.x = 0 ∧
    (runSequence scenarioRover (scenarioCmds.take 2)).1.y = 2 ∧
    (runSequence scenarioRover (scenarioCmds.take 3)).1.direction = Direction.east ∧
    (runSequence scenarioRover (scenarioCmds.take 4)).1.x = 1 ∧
    (runSequence scenarioRover (scenarioCmds.take 4)).1.y = 2 ∧
    (runSequence scenarioRover (scenarioCmds.take 5)).1.direction = Direction.north ∧
    (runSequence scenarioRover scenarioCmds).1.x = 1 ∧
    (runSequence scenarioRover scenarioCmds).1.y = 3 ∧
    (runSequence scenarioRover scenarioCmds).1.report = "Rover is at (1, 3) facing N" := by
  decide

/-- C5 as stated is false: the MMRMLM run does not end at (2, 2). -/
theorem scenario_final_not_2_2 :
    ¬((runSequence scenarioRover scenarioCmds).1.x = 2 ∧
      (runSequence scenarioRover scenarioCmds).1.y = 2) := by
  decide

/-- C5 amended: the MMRMLM run on the driver scenario ends at (1, 3). -/
theorem scenario_final_position :
    (runSequence scenarioRover scenarioCmds).1.x = 1 ∧
    (runSequence scenarioRover scenarioCmds).1.y = 3 := by
  decide

/-- C6: `withinBounds(x, y)` holds exactly on `[0, width) × [0, height)`
for any grid constructed with the given width and height. -/
theorem withinBounds_iff_in_range (w h x y : Int) (cs : List GridComponent) :
    (Grid.mk w h cs).withinBounds x y = true ↔
      (0 ≤ x ∧ x < w) ∧ (0 ≤ y ∧ y < h) := by
  simp [Grid.withinBounds]
  tauto

/-- C7: `isBlocked(x, y)` holds exactly when a registered component whose
`isObstacle()` is true sits at (x, y); registering a non-obstacle `Cell`
never changes `isBlocked`, so it is membership in the obstacle set. -/
theorem isBlocked_spec (g : Grid) (x y : Int) :
    (g.isBlocked x y = true ↔
      ∃ c ∈ g.components, c.isObstacle = true ∧ c.x = x ∧ c.y = y) ∧
    ∀ a b : Int, (g.add (GridComponent.cell a b)).isBlocked x y = g.isBlocked x y := by
  refine ⟨isBlocked_eq_true_iff g x y, fun a b => ?_⟩
  simp [Grid.add, Grid.isBlocked, GridComponent.isObstacle]

/-- C8: rotating left then right, or right then left, is the identity on
every heading. -/
theorem rotation_self_inverse (d : Direction) :
    d.left.right = d ∧ d.right.left = d := by
  cases d <;> exact ⟨rfl, rfl⟩

/-- C9: turning left or right never changes the position, and
`moveForward()` never changes the heading, committed or blocked. -/
theorem frame_conditions (r : Rover) :
    r.turnLeft.x = r.x ∧ r.turnLeft.y = r.y ∧
    r.turnRight.x = r.x ∧ r.turnRight.y = r.y ∧
    r.moveForward.1.direction = r.direction := by
  refine ⟨rfl, rfl, rfl, rfl, ?_⟩
  unfold Rover.moveForward
  dsimp only
  split <;> rfl

/-- C10: every core Rover operation, in its exception-aware translation,
returns normally on every state: no operation ever produces an error. -/
theorem rover_ops_total (r : Rover) :
    (∃ v, r.turnLeftE = Except.ok v) ∧ (∃ v, r.turnRightE = Except.ok v) ∧
    (∃ v, r.moveForwardE = Except.ok v) ∧ (∃ s, r.reportE = Except.ok s) :=
  ⟨⟨_, rfl⟩, ⟨_, rfl⟩, ⟨_, rfl⟩, ⟨_, rfl⟩⟩

end MarsRover
